import Mathlib

/-!
Verification of the custom input-handling core of the tldraw-bgbahasajerman
whiteboard application.

The embedding below models, faithfully to the TypeScript source:

* `handleWheel` — the wheel-event handler of `SwappedZoomPanHandler`
  (`src/src/App.tsx`): modifier-keyed panning and zoom-to-cursor.
* `onPointerDown` / `onPointerMove` / `onPointerUp` / `onContextMenu`,
  together with the helpers `startPanning` / `stopPanning` — the
  right-button gesture arbiter of `RightClickPanHandler`
  (`src/src/components/RightClickPanHandler.tsx`).

Numbers (`clientX`, `clientY`, `deltaY`, camera fields, timestamps) are
modelled as rationals; JavaScript decimal literals become the exact
rationals they denote (0.5 = 1/2, 1.1 = 11/10, 0.9 = 9/10, 0.01 = 1/100).
The host editor (tldraw) is modelled by an explicit `Host` state carrying
camera, current tool, selection, cursor, held pointer capture, and an
abstract hit-test function `shapeAt`; every `editor.*` call of the source
becomes a field read or a record update of this state.  The effects the
handlers have on event propagation and on host resources are recorded in
an `Eff` record per processed event and accumulated over event traces by
`runAcc`.
-/

namespace TldrawBgb

/-- Camera state of the host editor: page-space offset `x`, `y` and zoom
`z` (tldraw's `editor.getCamera()` / `editor.setCamera`). -/
structure Camera where
  x : ℚ
  y : ℚ
  z : ℚ
deriving Repr, DecidableEq

/-- A DOM wheel event, restricted to the fields `handleWheel` reads. -/
structure WheelEvent where
  deltaY : ℚ
  shiftKey : Bool
  ctrlKey : Bool
  metaKey : Bool
deriving Repr, DecidableEq

/-- Constants of the wheel handler (`src/src/App.tsx`): the literals
`0.5`, `1.1`, `0.9`, `0.01`, `8` appearing in `handleWheel`. -/
def PAN_SCALE : ℚ := 1/2

/-- Zoom-in factor: the literal `1.1` in `handleWheel`. -/
def ZOOM_IN : ℚ := 11/10

/-- Zoom-out factor: the literal `0.9` in `handleWheel`. -/
def ZOOM_OUT : ℚ := 9/10

/-- Lower zoom clamp: the literal `0.01` in `handleWheel`. -/
def MIN_ZOOM : ℚ := 1/100

/-- Upper zoom clamp: the literal `8` in `handleWheel`. -/
def MAX_ZOOM : ℚ := 8

/-- `const DRAG_THRESHOLD = 5` in `RightClickPanHandler.tsx`. -/
def DRAG_THRESHOLD : ℚ := 5

/-- Spec constant `CLICK_TIME_THRESHOLD` (default 200 ms).  The source of
`RightClickPanHandler.tsx` defines no such constant and never reads event
timestamps; the constant is used here only to state timing hypotheses of
the claims. -/
def CLICK_TIME_THRESHOLD : ℚ := 200

/-- Result of one `handleWheel` call: camera written by the single
`editor.setCamera` call of the taken branch, the number of `setCamera`
calls issued, and whether `preventDefault` / `stopPropagation` ran. -/
structure WheelResult where
  camera : Camera
  setCameraCalls : Nat
  prevDefault : Bool
  stopProp : Bool
deriving Repr, DecidableEq

/-- `handleWheel` of `SwappedZoomPanHandler` (`src/src/App.tsx`, lines
13-52).  `screenX`/`screenY` is `editor.inputs.currentScreenPoint`. -/
def handleWheel (e : WheelEvent) (cam : Camera) (screenX screenY : ℚ) :
    WheelResult :=
  if e.shiftKey = true then
    let panAmount := e.deltaY * PAN_SCALE
    ⟨⟨cam.x + panAmount / cam.z, cam.y, cam.z⟩, 1, true, true⟩
  else if e.ctrlKey = true ∨ e.metaKey = true then
    let panAmount := e.deltaY * (-PAN_SCALE)
    ⟨⟨cam.x, cam.y + panAmount / cam.z, cam.z⟩, 1, true, true⟩
  else
    let delta := -e.deltaY
    let zoomFactor := if 0 < delta then ZOOM_IN else ZOOM_OUT
    let newZoom := max MIN_ZOOM (min MAX_ZOOM (cam.z * zoomFactor))
    let pageXBefore := screenX / cam.z - cam.x
    let pageYBefore := screenY / cam.z - cam.y
    ⟨⟨screenX / newZoom - pageXBefore, screenY / newZoom - pageYBefore,
      newZoom⟩, 1, true, true⟩

/-- The host facade's screen-to-page transform (`editor.screenToPage`),
as encoded by the repository's own code: `handleWheel` computes
`pageXBefore = screenX / zoom - camX`, and the spec glossary relates the
two spaces by camera offset and zoom the same way. -/
def screenToPage (cam : Camera) (sx sy : ℚ) : ℚ × ℚ :=
  (sx / cam.z - cam.x, sy / cam.z - cam.y)

/-- Inverse transform: the screen position at which a page-space point is
rendered under a given camera (`screen = (page + cam) * zoom`). -/
def pageToScreen (cam : Camera) (p : ℚ × ℚ) : ℚ × ℚ :=
  ((p.1 + cam.x) * cam.z, (p.2 + cam.y) * cam.z)

/-- A DOM pointer event, restricted to the fields the handler reads.
`t` is the event timestamp; the source never reads it (it exists only so
the claims' timing hypotheses can be stated). -/
structure PtrEvent where
  button : Nat
  buttons : Nat
  x : ℚ
  y : ℚ
  pointerId : Nat
  t : ℚ
deriving Repr, DecidableEq

/-- The closure-captured mutable variables of `RightClickPanHandler`
(`isPanning`, `preventContextMenu`, `lastX/Y`, `startX/Y`,
`previousTool`, `previousSelection`). -/
structure HState where
  isPanning : Bool
  preventContextMenu : Bool
  lastX : ℚ
  lastY : ℚ
  startX : ℚ
  startY : ℚ
  previousTool : String
  previousSelection : List Nat
deriving Repr, DecidableEq

/-- Initial values of the closure variables. -/
def HState.init : HState :=
  ⟨false, false, 0, 0, 0, 0, "select", []⟩

/-- Host-editor state visible through the facade calls the handler makes.
`shapeAt` abstracts `editor.getShapeAtPoint` on page-space coordinates;
`capturedId` records the pointer id held via `setPointerCapture`. -/
structure Host where
  camera : Camera
  currentTool : String
  selection : List Nat
  cursor : String
  capturedId : Option Nat
  shapeAt : ℚ → ℚ → Option Nat

/-- Per-event effect record: propagation control plus the host-resource
calls issued while handling the event. -/
structure Eff where
  stopProp : Bool
  prevDefault : Bool
  captures : Nat
  releases : Nat
  toolSets : List String
  menuPrevented : Bool
  menuPassed : Bool
  dispatchedMenu : Bool
deriving Repr, DecidableEq

/-- The no-effect record. -/
def Eff.none : Eff := ⟨false, false, 0, 0, [], false, false, false⟩

/-- `Math.hypot dx dy > thr` for a nonnegative threshold, expressed
without square roots: `hypot dx dy > thr ↔ dx² + dy² > thr²`. -/
abbrev distExceeds (dx dy thr : ℚ) : Prop :=
  thr * thr < dx * dx + dy * dy

/-- `onPointerDown` (`RightClickPanHandler.tsx`): on a right-button press
reset `preventContextMenu`, record origin and last point, snapshot the
selection, consume the event, and (best-effort) capture the pointer. -/
def onPointerDown (e : PtrEvent) (s : HState) (h : Host) :
    HState × Host × Eff :=
  if e.button = 2 then
    ({ s with preventContextMenu := false, lastX := e.x, lastY := e.y,
              startX := e.x, startY := e.y,
              previousSelection := h.selection },
     { h with capturedId := some e.pointerId },
     ⟨true, true, 1, 0, [], false, false, false⟩)
  else (s, h, Eff.none)

/-- `startPanning`: enter the panning phase — set the flags, revert the
selection to the pointer-down snapshot, save the current tool, switch the
host to the hand tool and show a grabbing cursor. -/
def startPanning (s : HState) (h : Host) : HState × Host × Eff :=
  ({ s with isPanning := true, preventContextMenu := true,
            previousTool := h.currentTool },
   { h with selection := s.previousSelection, currentTool := "hand",
            cursor := "grabbing" },
   ⟨false, false, 0, 0, ["hand"], false, false, false⟩)

/-- `stopPanning`: leave the panning phase — release the pointer capture
(best-effort), restore the saved tool and the default cursor. -/
def stopPanning (s : HState) (h : Host) : HState × Host × Eff :=
  ({ s with isPanning := false },
   { h with capturedId := none, currentTool := s.previousTool,
            cursor := "default" },
   ⟨false, false, 0, 1, [s.previousTool], false, false, false⟩)

/-- `onPointerMove` (`RightClickPanHandler.tsx`): if the right button is
no longer in `buttons`, stop an active pan and return; otherwise start
panning once displacement from the origin exceeds `DRAG_THRESHOLD`, and
while panning translate the camera by the screen delta divided by zoom,
update the last point and consume the event. -/
def onPointerMove (e : PtrEvent) (s : HState) (h : Host) :
    HState × Host × Eff :=
  if e.buttons &&& 2 = 0 then
    if s.isPanning = true then stopPanning s h else (s, h, Eff.none)
  else
    let r1 :=
      if s.isPanning = false ∧
          distExceeds (e.x - s.startX) (e.y - s.startY) DRAG_THRESHOLD then
        startPanning s h
      else (s, h, Eff.none)
    let s1 := r1.1
    let h1 := r1.2.1
    let eff1 := r1.2.2
    if s1.isPanning = true then
      let dx := e.x - s1.lastX
      let dy := e.y - s1.lastY
      let cam := h1.camera
      ({ s1 with lastX := e.x, lastY := e.y },
       { h1 with camera := ⟨cam.x + dx / cam.z, cam.y + dy / cam.z, cam.z⟩ },
       { eff1 with stopProp := true })
    else (s1, h1, eff1)

/-- `onPointerUp` (`RightClickPanHandler.tsx`): on a right-button release
either finish the pan (restore tool, consume the event) or treat the
gesture as a click — hit-test the release point, update the selection,
clear `preventContextMenu` and dispatch a synthetic `contextmenu` event —
and in both branches release the pointer capture (best-effort). -/
def onPointerUp (e : PtrEvent) (s : HState) (h : Host) :
    HState × Host × Eff :=
  if e.button = 2 then
    if s.isPanning = true then
      let r := stopPanning s h
      (r.1, { r.2.1 with capturedId := none },
       { r.2.2 with stopProp := true, releases := r.2.2.releases + 1 })
    else
      let pagePoint := screenToPage h.camera e.x e.y
      let h1 :=
        match h.shapeAt pagePoint.1 pagePoint.2 with
        | some sid =>
            if h.selection.contains sid = true then h
            else { h with selection := [sid] }
        | Option.none => { h with selection := ([] : List Nat) }
      ({ s with preventContextMenu := false },
       { h1 with capturedId := none },
       ⟨false, false, 0, 1, [], false, false, true⟩)
  else (s, h, Eff.none)

/-- `onContextMenu` (`RightClickPanHandler.tsx`): consume the event and
clear the flag when `preventContextMenu` is set, otherwise let the event
reach the host. -/
def onContextMenu (s : HState) : HState × Eff :=
  if s.preventContextMenu = true then
    ({ s with preventContextMenu := false },
     ⟨true, true, 0, 0, [], true, false, false⟩)
  else (s, ⟨false, false, 0, 0, [], false, true, false⟩)

/-- One pointer/context-menu event of a trace. -/
inductive Ev where
  | pdown (e : PtrEvent)
  | pmove (e : PtrEvent)
  | pup (e : PtrEvent)
  | cmenu
deriving Repr, DecidableEq

/-- Dispatch one trace event to the corresponding handler. -/
def step (ev : Ev) (s : HState) (h : Host) : HState × Host × Eff :=
  match ev with
  | Ev.pdown e => onPointerDown e s h
  | Ev.pmove e => onPointerMove e s h
  | Ev.pup e => onPointerUp e s h
  | Ev.cmenu =>
      let r := onContextMenu s
      (r.1, h, r.2)

/-- Accumulated view of a running trace: current handler and host state
plus cumulative counts of capture acquisitions, capture releases,
`setCurrentTool` calls (in order), context-menu events suppressed,
context-menu events allowed through, and synthetic context-menu events
dispatched by the handler. -/
structure Acc where
  hs : HState
  host : Host
  captures : Nat
  releases : Nat
  toolSets : List String
  menusPrevented : Nat
  menusPassed : Nat
  menusDispatched : Nat

/-- Starting accumulator for a trace. -/
def Acc.start (s : HState) (h : Host) : Acc := ⟨s, h, 0, 0, [], 0, 0, 0⟩

/-- Process one trace event, folding its effects into the accumulator. -/
def stepA (ev : Ev) (a : Acc) : Acc :=
  let r := step ev a.hs a.host
  ⟨r.1, r.2.1,
   a.captures + r.2.2.captures,
   a.releases + r.2.2.releases,
   a.toolSets ++ r.2.2.toolSets,
   a.menusPrevented + (if r.2.2.menuPrevented = true then 1 else 0),
   a.menusPassed + (if r.2.2.menuPassed = true then 1 else 0),
   a.menusDispatched + (if r.2.2.dispatchedMenu = true then 1 else 0)⟩

/-- Fold the step function over an event trace, accumulating effects. -/
def runAcc : List Ev → Acc → Acc
  | [], a => a
  | ev :: rest, a => runAcc rest (stepA ev a)

/-- A full right-button session trace: the initiating right-button-down,
a block of pointer moves, then arbitrary further events. -/
def sessionRun (s0 : HState) (h0 : Host) (d : PtrEvent)
    (moves : List PtrEvent) (rest : List Ev) : Acc :=
  runAcc (Ev.pdown d :: (moves.map Ev.pmove ++ rest)) (Acc.start s0 h0)

/-- A concrete host used to instantiate universally quantified theorems:
default camera, select tool, empty canvas (the hit test finds nothing). -/
def emptyHost : Host :=
  ⟨⟨0, 0, 1⟩, "select", [], "default", Option.none, fun _ _ => Option.none⟩

/-- A concrete host whose hit test finds shape `7` everywhere and whose
selection already contains shape `3`. -/
def shapeHost : Host :=
  ⟨⟨0, 0, 1⟩, "select", [3], "default", Option.none, fun _ _ => some 7⟩

/-! ### Basic trace lemmas -/

theorem runAcc_append (l1 l2 : List Ev) (a : Acc) :
    runAcc (l1 ++ l2) a = runAcc l2 (runAcc l1 a) := by
  induction l1 generalizing a with
  | nil => rfl
  | cons ev rest ih => simp [runAcc, ih]

/-! ### Wheel-handler theorems -/

/-- C5: with no modifier held, the zoom written by `handleWheel` is
`clamp(old_zoom * f, MIN_ZOOM, MAX_ZOOM)` with `f = ZOOM_IN` exactly when
`deltaY < 0` and `ZOOM_OUT` otherwise, and the resulting zoom lies in
`[MIN_ZOOM, MAX_ZOOM]`. -/
theorem claim5_zoom_clamped (e : WheelEvent) (cam : Camera) (sx sy : ℚ)
    (hs : e.shiftKey = false) (hc : e.ctrlKey = false)
    (hm : e.metaKey = false)
    (hz : MIN_ZOOM ≤ cam.z ∧ cam.z ≤ MAX_ZOOM) :
    (handleWheel e cam sx sy).camera.z =
      max MIN_ZOOM (min MAX_ZOOM
        (cam.z * (if e.deltaY < 0 then ZOOM_IN else ZOOM_OUT))) ∧
    MIN_ZOOM ≤ (handleWheel e cam sx sy).camera.z ∧
    (handleWheel e cam sx sy).camera.z ≤ MAX_ZOOM := by
  have hneg : (0 < -e.deltaY) = (e.deltaY < 0) := by
    simp [neg_pos]
  refine ⟨?_, ?_, ?_⟩
  · simp [handleWheel, hs, hc, hm, hneg]
  · simp only [handleWheel, hs, hc, hm]
    simp only [Bool.false_eq_true, if_false, false_or]
    exact le_max_left _ _
  · simp only [handleWheel, hs, hc, hm]
    simp only [Bool.false_eq_true, if_false, false_or]
    exact max_le (by norm_num [MIN_ZOOM, MAX_ZOOM]) (min_le_left _ _)

/-- Witness for C5 at a concrete event: `deltaY = -120`, no modifiers,
camera zoom `1`. -/
theorem claim5_witness :
    ((⟨-120, false, false, false⟩ : WheelEvent).shiftKey = false ∧
     MIN_ZOOM ≤ (1 : ℚ) ∧ (1 : ℚ) ≤ MAX_ZOOM) ∧
    ((handleWheel ⟨-120, false, false, false⟩ ⟨0, 0, 1⟩ 400 300).camera.z =
      max MIN_ZOOM (min MAX_ZOOM
        ((1 : ℚ) * (if (-120 : ℚ) < 0 then ZOOM_IN else ZOOM_OUT))) ∧
     MIN_ZOOM ≤ (handleWheel ⟨-120, false, false, false⟩
        ⟨0, 0, 1⟩ 400 300).camera.z ∧
     (handleWheel ⟨-120, false, false, false⟩
        ⟨0, 0, 1⟩ 400 300).camera.z ≤ MAX_ZOOM) :=
  ⟨⟨rfl, by norm_num [MIN_ZOOM, MAX_ZOOM]⟩,
   claim5_zoom_clamped ⟨-120, false, false, false⟩ ⟨0, 0, 1⟩ 400 300
     rfl rfl rfl (by norm_num [MIN_ZOOM, MAX_ZOOM])⟩

/-- C7: Shift+wheel pans `camera.x` by `deltaY * PAN_SCALE / zoom` with
`y` and zoom unchanged; Ctrl/Cmd+wheel (without Shift) pans `camera.y` by
`(-deltaY) * PAN_SCALE / zoom` with `x` and zoom unchanged — the opposite
sign — and each wheel event issues exactly one camera-set call. -/
theorem claim7_modifier_pans (e : WheelEvent) (cam : Camera) (sx sy : ℚ) :
    (e.shiftKey = true →
      (handleWheel e cam sx sy).camera.x =
          cam.x + e.deltaY * PAN_SCALE / cam.z ∧
      (handleWheel e cam sx sy).camera.y = cam.y ∧
      (handleWheel e cam sx sy).camera.z = cam.z) ∧
    (e.shiftKey = false → (e.ctrlKey = true ∨ e.metaKey = true) →
      (handleWheel e cam sx sy).camera.x = cam.x ∧
      (handleWheel e cam sx sy).camera.y =
          cam.y + (-e.deltaY) * PAN_SCALE / cam.z ∧
      (handleWheel e cam sx sy).camera.z = cam.z) ∧
    (handleWheel e cam sx sy).setCameraCalls = 1 := by
  refine ⟨?_, ?_, ?_⟩
  · intro h
    have hw : handleWheel e cam sx sy =
        ⟨⟨cam.x + e.deltaY * PAN_SCALE / cam.z, cam.y, cam.z⟩,
         1, true, true⟩ := by
      simp [handleWheel, h]
    rw [hw]
    exact ⟨rfl, rfl, rfl⟩
  · intro h hcm
    have hw : handleWheel e cam sx sy =
        ⟨⟨cam.x, cam.y + e.deltaY * (-PAN_SCALE) / cam.z, cam.z⟩,
         1, true, true⟩ := by
      simp [handleWheel, h, hcm]
    rw [hw]
    refine ⟨rfl, ?_, rfl⟩
    show cam.y + e.deltaY * (-PAN_SCALE) / cam.z =
        cam.y + (-e.deltaY) * PAN_SCALE / cam.z
    ring
  · by_cases h1 : e.shiftKey = true
    · simp [handleWheel, h1]
    · by_cases h2 : e.ctrlKey = true ∨ e.metaKey = true
      · simp [handleWheel, h1, h2]
      · simp [handleWheel, h1, h2]

/-- Witness for C7: Shift+wheel with `deltaY = 120` at zoom `2`. -/
theorem claim7_witness :
    ((⟨120, true, false, false⟩ : WheelEvent).shiftKey = true ∧
     (handleWheel ⟨120, true, false, false⟩ ⟨0, 0, 2⟩ 0 0).camera.x =
        0 + 120 * PAN_SCALE / 2 ∧
     (handleWheel ⟨120, true, false, false⟩ ⟨0, 0, 2⟩ 0 0).camera.y = 0 ∧
     (handleWheel ⟨120, true, false, false⟩ ⟨0, 0, 2⟩ 0 0).camera.z = 2) :=
  ⟨rfl, (claim7_modifier_pans ⟨120, true, false, false⟩ ⟨0, 0, 2⟩ 0 0).1 rfl⟩

/-- C10 (implicit): when both Shift and Ctrl (or Cmd) are held, the
horizontal-pan branch is taken — Shift wins — so `camera.y` and zoom are
untouched and `camera.x` follows the horizontal formula; the vertical
formula runs only when Ctrl/Cmd is held without Shift. -/
theorem claim10_shift_precedence (e : WheelEvent) (cam : Camera)
    (sx sy : ℚ) (hshift : e.shiftKey = true)
    (hcm : e.ctrlKey = true ∨ e.metaKey = true) :
    (handleWheel e cam sx sy).camera.x =
        cam.x + e.deltaY * PAN_SCALE / cam.z ∧
    (handleWheel e cam sx sy).camera.y = cam.y ∧
    (handleWheel e cam sx sy).camera.z = cam.z := by
  simp [handleWheel, hshift]

/-- Witness for C10: Shift and Ctrl both held, `deltaY = 120`. -/
theorem claim10_witness :
    ((⟨120, true, true, false⟩ : WheelEvent).shiftKey = true ∧
     ((⟨120, true, true, false⟩ : WheelEvent).ctrlKey = true ∨
      (⟨120, true, true, false⟩ : WheelEvent).metaKey = true)) ∧
    ((handleWheel ⟨120, true, true, false⟩ ⟨0, 0, 1⟩ 0 0).camera.x =
        0 + 120 * PAN_SCALE / 1 ∧
     (handleWheel ⟨120, true, true, false⟩ ⟨0, 0, 1⟩ 0 0).camera.y = 0 ∧
     (handleWheel ⟨120, true, true, false⟩ ⟨0, 0, 1⟩ 0 0).camera.z = 1) :=
  ⟨⟨rfl, Or.inl rfl⟩,
   claim10_shift_precedence ⟨120, true, true, false⟩ ⟨0, 0, 1⟩ 0 0 rfl
     (Or.inl rfl)⟩

/-- C3: for a no-modifier wheel event whose zoom multiplication is not
clamped, the page point that was under the cursor before the zoom change
maps back to the same screen position under the new camera. -/
theorem claim3_zoom_roundtrip (e : WheelEvent) (cam : Camera) (sx sy : ℚ)
    (hs : e.shiftKey = false) (hc : e.ctrlKey = false)
    (hm : e.metaKey = false) (hz : 0 < cam.z)
    (hclamp :
      MIN_ZOOM ≤ cam.z * (if 0 < -e.deltaY then ZOOM_IN else ZOOM_OUT) ∧
      cam.z * (if 0 < -e.deltaY then ZOOM_IN else ZOOM_OUT) ≤ MAX_ZOOM) :
    pageToScreen (handleWheel e cam sx sy).camera
        (screenToPage cam sx sy) = (sx, sy) := by
  have hzne : cam.z ≠ 0 := ne_of_gt hz
  simp only [handleWheel, hs, hc, hm, Bool.false_eq_true, if_false,
    false_or, screenToPage, pageToScreen]
  generalize hF : (if 0 < -e.deltaY then ZOOM_IN else ZOOM_OUT) = F
      at hclamp ⊢
  have hclamped : max MIN_ZOOM (min MAX_ZOOM (cam.z * F)) = cam.z * F := by
    rw [min_eq_right hclamp.2]
    exact max_eq_right hclamp.1
  rw [hclamped]
  have hzf : cam.z * F ≠ 0 := by
    have h1 : (0 : ℚ) < MIN_ZOOM := by norm_num [MIN_ZOOM]
    exact ne_of_gt (lt_of_lt_of_le h1 hclamp.1)
  refine Prod.ext ?_ ?_ <;> simp only [Prod.fst, Prod.snd] <;>
    field_simp <;> ring

/-- Witness for C3 at the claim's concrete instance: camera `{0,0,1}`,
cursor `(400,300)`, `deltaY = -120`; the new zoom is `1.1` and the page
point originally under `(400,300)` maps back to `(400,300)`. -/
theorem claim3_witness :
    ((0 : ℚ) < (1 : ℚ) ∧
     (handleWheel ⟨-120, false, false, false⟩ ⟨0, 0, 1⟩ 400 300).camera.z =
       11/10) ∧
    pageToScreen
        (handleWheel ⟨-120, false, false, false⟩ ⟨0, 0, 1⟩ 400 300).camera
        (screenToPage ⟨0, 0, 1⟩ 400 300) = (400, 300) :=
  ⟨⟨by norm_num, by norm_num [handleWheel, MIN_ZOOM, MAX_ZOOM, ZOOM_IN]⟩,
   claim3_zoom_roundtrip ⟨-120, false, false, false⟩ ⟨0, 0, 1⟩ 400 300
     rfl rfl rfl (by norm_num)
     (by norm_num [MIN_ZOOM, MAX_ZOOM, ZOOM_IN, ZOOM_OUT])⟩

/-! ### Single-step pointer-move theorem -/

/-- C6: a pointer move processed while panning is active and the right
button is still held translates the camera by exactly
`(dx / zoom, dy / zoom)` from the last recorded point, leaves the zoom
unchanged, updates the last recorded point to the current point, and
stops the event's propagation. -/
theorem claim6_pan_move_step (e : PtrEvent) (s : HState) (h : Host)
    (hp : s.isPanning = true) (hb : e.buttons &&& 2 ≠ 0) :
    (onPointerMove e s h).2.1.camera.x =
        h.camera.x + (e.x - s.lastX) / h.camera.z ∧
    (onPointerMove e s h).2.1.camera.y =
        h.camera.y + (e.y - s.lastY) / h.camera.z ∧
    (onPointerMove e s h).2.1.camera.z = h.camera.z ∧
    (onPointerMove e s h).1.lastX = e.x ∧
    (onPointerMove e s h).1.lastY = e.y ∧
    (onPointerMove e s h).2.2.stopProp = true := by
  simp [onPointerMove, hb, hp]

/-- A concrete handler state in the middle of a pan (last point at
`(10, 10)`). -/
def panState : HState := ⟨true, true, 10, 10, 0, 0, "select", []⟩

/-- Witness for C6: a held right-button move to `(16, 13)` while panning
from last point `(10, 10)` at zoom `1`. -/
theorem claim6_witness :
    (panState.isPanning = true ∧
     (⟨0, 2, 16, 13, 1, 50⟩ : PtrEvent).buttons &&& 2 ≠ 0) ∧
    ((onPointerMove ⟨0, 2, 16, 13, 1, 50⟩ panState emptyHost).2.1.camera.x =
        emptyHost.camera.x + (16 - panState.lastX) / emptyHost.camera.z ∧
     (onPointerMove ⟨0, 2, 16, 13, 1, 50⟩ panState emptyHost).2.1.camera.y =
        emptyHost.camera.y + (13 - panState.lastY) / emptyHost.camera.z ∧
     (onPointerMove ⟨0, 2, 16, 13, 1, 50⟩ panState emptyHost).2.1.camera.z =
        emptyHost.camera.z ∧
     (onPointerMove ⟨0, 2, 16, 13, 1, 50⟩ panState emptyHost).1.lastX = 16 ∧
     (onPointerMove ⟨0, 2, 16, 13, 1, 50⟩ panState emptyHost).1.lastY = 13 ∧
     (onPointerMove ⟨0, 2, 16, 13, 1, 50⟩ panState
        emptyHost).2.2.stopProp = true) :=
  ⟨⟨rfl, by decide⟩,
   claim6_pan_move_step ⟨0, 2, 16, 13, 1, 50⟩ panState emptyHost rfl
     (by decide)⟩

/-! ### Session invariant and trace lemmas -/

/-- Invariant holding while a right-button session is live (after the
initiating pointer-down, through any block of moves with the right button
held): `tool0` and `sel0` are the pre-session tool and selection, `pid`
the captured pointer id, `(x0, y0)` the press origin. -/
def SessionInv (tool0 : String) (sel0 : List Nat) (pid : Nat)
    (x0 y0 : ℚ) (a : Acc) : Prop :=
  a.hs.previousSelection = sel0 ∧
  a.host.selection = sel0 ∧
  a.hs.startX = x0 ∧
  a.hs.startY = y0 ∧
  a.host.capturedId = some pid ∧
  a.captures = 1 ∧
  a.releases = 0 ∧
  a.menusPrevented = 0 ∧
  a.menusPassed = 0 ∧
  a.menusDispatched = 0 ∧
  (a.hs.isPanning = true →
     a.host.currentTool = "hand" ∧ a.hs.previousTool = tool0 ∧
     a.hs.preventContextMenu = true ∧ a.toolSets = ["hand"]) ∧
  (a.hs.isPanning = false →
     a.host.currentTool = tool0 ∧ a.toolSets = [])

theorem sessionInv_down (s0 : HState) (h0 : Host) (d : PtrEvent)
    (hp0 : s0.isPanning = false) (hd : d.button = 2) :
    SessionInv h0.currentTool h0.selection d.pointerId d.x d.y
      (stepA (Ev.pdown d) (Acc.start s0 h0)) := by
  simp [stepA, step, onPointerDown, hd, Acc.start, SessionInv, hp0]

theorem sessionInv_move (tool0 : String) (sel0 : List Nat) (pid : Nat)
    (x0 y0 : ℚ) (e : PtrEvent) (a : Acc)
    (hb : e.buttons &&& 2 ≠ 0)
    (ha : SessionInv tool0 sel0 pid x0 y0 a) :
    SessionInv tool0 sel0 pid x0 y0 (stepA (Ev.pmove e) a) := by
  obtain ⟨h1, h2, h3, h4, h5, h6, h7, h8, h9, h10, hpan, harmed⟩ := ha
  cases hip : a.hs.isPanning with
  | true =>
      obtain ⟨ht1, ht2, ht3, ht4⟩ := hpan hip
      simp [stepA, step, onPointerMove, hb, hip, SessionInv, Eff.none, h1,
        h2, h3, h4, h5, h6, h7, h8, h9, h10, ht1, ht2, ht3, ht4]
  | false =>
      obtain ⟨hf1, hf2⟩ := harmed hip
      by_cases hdist :
          distExceeds (e.x - a.hs.startX) (e.y - a.hs.startY) DRAG_THRESHOLD
      · rw [h3, h4] at hdist
        simp [stepA, step, onPointerMove, hb, hip, hdist, startPanning,
          SessionInv, Eff.none, h1, h2, h3, h4, h5, h6, h7, h8, h9, h10,
          hf1, hf2]
      · rw [h3, h4] at hdist
        simp [stepA, step, onPointerMove, hb, hip, hdist, SessionInv,
          Eff.none, h1, h2, h3, h4, h5, h6, h7, h8, h9, h10, hf1, hf2]

theorem sessionInv_run (tool0 : String) (sel0 : List Nat) (pid : Nat)
    (x0 y0 : ℚ) (moves : List PtrEvent)
    (hheld : ∀ e ∈ moves, e.buttons &&& 2 ≠ 0) (a : Acc)
    (ha : SessionInv tool0 sel0 pid x0 y0 a) :
    SessionInv tool0 sel0 pid x0 y0 (runAcc (moves.map Ev.pmove) a) := by
  induction moves generalizing a with
  | nil => simpa [runAcc] using ha
  | cons e rest ih =>
      simp only [List.map_cons, runAcc]
      exact ih (fun x hx => hheld x (List.mem_cons_of_mem _ hx)) _
        (sessionInv_move tool0 sel0 pid x0 y0 e a
          (hheld e (List.mem_cons_self _ _)) ha)

theorem panning_absorb_step (e : PtrEvent) (a : Acc)
    (hb : e.buttons &&& 2 ≠ 0) (hp : a.hs.isPanning = true) :
    (stepA (Ev.pmove e) a).hs.isPanning = true := by
  simp [stepA, step, onPointerMove, hb, hp]

theorem panning_absorb_run (moves : List PtrEvent)
    (hheld : ∀ e ∈ moves, e.buttons &&& 2 ≠ 0) (a : Acc)
    (hp : a.hs.isPanning = true) :
    (runAcc (moves.map Ev.pmove) a).hs.isPanning = true := by
  induction moves generalizing a with
  | nil => simpa [runAcc] using hp
  | cons e rest ih =>
      simp only [List.map_cons, runAcc]
      exact ih (fun x hx => hheld x (List.mem_cons_of_mem _ hx)) _
        (panning_absorb_step e a (hheld e (List.mem_cons_self _ _)) hp)

theorem panning_trigger (e : PtrEvent) (a : Acc) (x0 y0 : ℚ)
    (hb : e.buttons &&& 2 ≠ 0)
    (hx : a.hs.startX = x0) (hy : a.hs.startY = y0)
    (hdist : distExceeds (e.x - x0) (e.y - y0) DRAG_THRESHOLD) :
    (stepA (Ev.pmove e) a).hs.isPanning = true := by
  cases hip : a.hs.isPanning with
  | true => exact panning_absorb_step e a hb hip
  | false =>
      have hd : distExceeds (e.x - a.hs.startX) (e.y - a.hs.startY)
          DRAG_THRESHOLD := by rw [hx, hy]; exact hdist
      simp [stepA, step, onPointerMove, hb, hip, hd, startPanning]

theorem panning_after_exceed (tool0 : String) (sel0 : List Nat)
    (pid : Nat) (x0 y0 : ℚ) (moves : List PtrEvent)
    (hheld : ∀ e ∈ moves, e.buttons &&& 2 ≠ 0) (a : Acc)
    (ha : SessionInv tool0 sel0 pid x0 y0 a)
    (hex : ∃ e ∈ moves, distExceeds (e.x - x0) (e.y - y0) DRAG_THRESHOLD) :
    (runAcc (moves.map Ev.pmove) a).hs.isPanning = true := by
  induction moves generalizing a with
  | nil => simp at hex
  | cons e rest ih =>
      simp only [List.map_cons, runAcc]
      rcases hex with ⟨f, hf, hfd⟩
      rcases List.mem_cons.mp hf with rfl | hfr
      · exact panning_absorb_run rest
          (fun x hx => hheld x (List.mem_cons_of_mem _ hx)) _
          (panning_trigger f a x0 y0 (hheld f (List.mem_cons_self _ _))
            ha.2.2.1 ha.2.2.2.1 hfd)
      · exact ih (fun x hx => hheld x (List.mem_cons_of_mem _ hx)) _
          (sessionInv_move tool0 sel0 pid x0 y0 e a
            (hheld e (List.mem_cons_self _ _)) ha) ⟨f, hfr, hfd⟩

theorem armed_move_id (e : PtrEvent) (a : Acc)
    (hb : e.buttons &&& 2 ≠ 0) (hp : a.hs.isPanning = false)
    (hdist : ¬ distExceeds (e.x - a.hs.startX) (e.y - a.hs.startY)
        DRAG_THRESHOLD) :
    stepA (Ev.pmove e) a = a := by
  simp [stepA, step, onPointerMove, hb, hp, hdist, Eff.none]

theorem armed_run_id (moves : List PtrEvent) (a : Acc) (x0 y0 : ℚ)
    (hx : a.hs.startX = x0) (hy : a.hs.startY = y0)
    (hp : a.hs.isPanning = false)
    (hmoves : ∀ e ∈ moves, e.buttons &&& 2 ≠ 0 ∧
        ¬ distExceeds (e.x - x0) (e.y - y0) DRAG_THRESHOLD) :
    runAcc (moves.map Ev.pmove) a = a := by
  induction moves with
  | nil => rfl
  | cons e rest ih =>
      have hid : stepA (Ev.pmove e) a = a := by
        refine armed_move_id e a (hmoves e (List.mem_cons_self _ _)).1 hp ?_
        rw [hx, hy]
        exact (hmoves e (List.mem_cons_self _ _)).2
      simp only [List.map_cons, runAcc, hid]
      exact ih (fun f hf => hmoves f (List.mem_cons_of_mem _ hf))

/-! ### Session-terminator step lemmas -/

theorem pan_up_fields (a : Acc) (u : PtrEvent) (hu : u.button = 2)
    (hp : a.hs.isPanning = true) :
    (stepA (Ev.pup u) a).host.currentTool = a.hs.previousTool ∧
    (stepA (Ev.pup u) a).hs.preventContextMenu =
        a.hs.preventContextMenu ∧
    (stepA (Ev.pup u) a).toolSets = a.toolSets ++ [a.hs.previousTool] ∧
    (stepA (Ev.pup u) a).releases = a.releases + 2 ∧
    (stepA (Ev.pup u) a).captures = a.captures ∧
    (stepA (Ev.pup u) a).host.capturedId = Option.none ∧
    (stepA (Ev.pup u) a).menusPrevented = a.menusPrevented ∧
    (stepA (Ev.pup u) a).menusPassed = a.menusPassed ∧
    (stepA (Ev.pup u) a).hs.isPanning = false := by
  refine ⟨?_, ?_, ?_, ?_, ?_, ?_, ?_, ?_, ?_⟩ <;>
    simp [stepA, step, onPointerUp, stopPanning, hu, hp]

theorem abnormal_move_fields (a : Acc) (m : PtrEvent)
    (hm : m.buttons &&& 2 = 0) (hp : a.hs.isPanning = true) :
    (stepA (Ev.pmove m) a).host.currentTool = a.hs.previousTool ∧
    (stepA (Ev.pmove m) a).hs.preventContextMenu =
        a.hs.preventContextMenu ∧
    (stepA (Ev.pmove m) a).toolSets = a.toolSets ++ [a.hs.previousTool] ∧
    (stepA (Ev.pmove m) a).releases = a.releases + 1 ∧
    (stepA (Ev.pmove m) a).captures = a.captures ∧
    (stepA (Ev.pmove m) a).host.capturedId = Option.none ∧
    (stepA (Ev.pmove m) a).menusPrevented = a.menusPrevented ∧
    (stepA (Ev.pmove m) a).menusPassed = a.menusPassed ∧
    (stepA (Ev.pmove m) a).hs.isPanning = false := by
  refine ⟨?_, ?_, ?_, ?_, ?_, ?_, ?_, ?_, ?_⟩ <;>
    simp [stepA, step, onPointerMove, stopPanning, hm, hp]

theorem click_up_fields (a : Acc) (u : PtrEvent) (hu : u.button = 2)
    (hp : a.hs.isPanning = false) :
    (stepA (Ev.pup u) a).releases = a.releases + 1 ∧
    (stepA (Ev.pup u) a).captures = a.captures ∧
    (stepA (Ev.pup u) a).host.capturedId = Option.none ∧
    (stepA (Ev.pup u) a).hs.preventContextMenu = false ∧
    (stepA (Ev.pup u) a).menusPrevented = a.menusPrevented ∧
    (stepA (Ev.pup u) a).menusPassed = a.menusPassed ∧
    (stepA (Ev.pup u) a).menusDispatched = a.menusDispatched + 1 := by
  refine ⟨?_, ?_, ?_, ?_, ?_, ?_, ?_⟩ <;>
    simp [stepA, step, onPointerUp, hu, hp]

theorem cmenu_prevent_fields (a : Acc)
    (hp : a.hs.preventContextMenu = true) :
    (stepA Ev.cmenu a).menusPrevented = a.menusPrevented + 1 ∧
    (stepA Ev.cmenu a).menusPassed = a.menusPassed ∧
    (stepA Ev.cmenu a).host.currentTool = a.host.currentTool ∧
    (stepA Ev.cmenu a).toolSets = a.toolSets ∧
    (stepA Ev.cmenu a).releases = a.releases ∧
    (stepA Ev.cmenu a).captures = a.captures ∧
    (stepA Ev.cmenu a).host.capturedId = a.host.capturedId := by
  refine ⟨?_, ?_, ?_, ?_, ?_, ?_, ?_⟩ <;>
    simp [stepA, step, onContextMenu, hp]

theorem cmenu_pass_fields (a : Acc)
    (hp : a.hs.preventContextMenu = false) :
    (stepA Ev.cmenu a).menusPrevented = a.menusPrevented ∧
    (stepA Ev.cmenu a).menusPassed = a.menusPassed + 1 ∧
    (stepA Ev.cmenu a).host.selection = a.host.selection ∧
    (stepA Ev.cmenu a).menusDispatched = a.menusDispatched := by
  refine ⟨?_, ?_, ?_, ?_⟩ <;> simp [stepA, step, onContextMenu, hp]

theorem sessionRun_decomp (s0 : HState) (h0 : Host) (d : PtrEvent)
    (moves : List PtrEvent) (rest : List Ev) :
    sessionRun s0 h0 d moves rest =
      runAcc rest (runAcc (moves.map Ev.pmove)
        (stepA (Ev.pdown d) (Acc.start s0 h0))) := by
  simp [sessionRun, runAcc, runAcc_append]

theorem cmenu_host_id (a : Acc) : (stepA Ev.cmenu a).host = a.host := rfl

/-! ### Claim theorems for the gesture arbiter -/

/-- C2: in every right-button session whose displacement exceeds
`DRAG_THRESHOLD` at some held move, the host tool is `"hand"` (tldraw's
pan tool) from the moment the threshold is crossed for the rest of the
session, and at session end — whether the session ends with a
right-button-up or abnormally with the right button observed released on
a move event — the tool is restored to the exact pre-session tool; over
the whole session the tool is set exactly twice (`["hand", tool₀]`: one
switch, exactly one restoration), and the context-menu event following
the release is suppressed. -/
theorem claim2_pan_tool_lifecycle
    (s0 : HState) (h0 : Host) (hp0 : s0.isPanning = false)
    (d : PtrEvent) (hd : d.button = 2)
    (moves : List PtrEvent) (hheld : ∀ e ∈ moves, e.buttons &&& 2 ≠ 0)
    (hex : ∃ e ∈ moves, distExceeds (e.x - d.x) (e.y - d.y) DRAG_THRESHOLD)
    (tr : List Ev)
    (hterm : (∃ u : PtrEvent, u.button = 2 ∧ tr = [Ev.pup u]) ∨
             (∃ m : PtrEvent, m.buttons &&& 2 = 0 ∧ tr = [Ev.pmove m])) :
    (∀ p q, moves = p ++ q →
        (∃ e ∈ p, distExceeds (e.x - d.x) (e.y - d.y) DRAG_THRESHOLD) →
        (sessionRun s0 h0 d p []).host.currentTool = "hand") ∧
    (sessionRun s0 h0 d moves (tr ++ [Ev.cmenu])).host.currentTool =
        h0.currentTool ∧
    (sessionRun s0 h0 d moves (tr ++ [Ev.cmenu])).toolSets =
        ["hand", h0.currentTool] ∧
    (sessionRun s0 h0 d moves (tr ++ [Ev.cmenu])).menusPrevented = 1 := by
  have hinv1 := sessionInv_down s0 h0 d hp0 hd
  constructor
  · intro p q hpq hexp
    have hheldp : ∀ e ∈ p, e.buttons &&& 2 ≠ 0 := by
      intro e he
      exact hheld e (hpq ▸ List.mem_append_left q he)
    have hinvp := sessionInv_run _ _ _ _ _ p hheldp _ hinv1
    have hpanp := panning_after_exceed _ _ _ _ _ p hheldp _ hinv1 hexp
    obtain ⟨-, -, -, -, -, -, -, -, -, -, ipan, -⟩ := hinvp
    have hrw : sessionRun s0 h0 d p [] =
        runAcc (p.map Ev.pmove) (stepA (Ev.pdown d) (Acc.start s0 h0)) :=
      sessionRun_decomp s0 h0 d p []
    rw [hrw]
    exact (ipan hpanp).1
  · have hinvM := sessionInv_run _ _ _ _ _ moves hheld _ hinv1
    have hpanM := panning_after_exceed _ _ _ _ _ moves hheld _ hinv1 hex
    obtain ⟨i1, i2, i3, i4, i5, i6, i7, i8, i9, i10, ipan, iarmed⟩ := hinvM
    obtain ⟨p1, p2, p3, p4⟩ := ipan hpanM
    rcases hterm with ⟨u, hu, htr⟩ | ⟨m, hm, htr⟩
    · subst htr
      have hrw : sessionRun s0 h0 d moves ([Ev.pup u] ++ [Ev.cmenu]) =
          stepA Ev.cmenu (stepA (Ev.pup u) (runAcc (moves.map Ev.pmove)
            (stepA (Ev.pdown d) (Acc.start s0 h0)))) := by
        rw [sessionRun_decomp]
        rfl
      obtain ⟨u1, u2, u3, u4, u5, u6, u7, u8, u9⟩ :=
        pan_up_fields _ u hu hpanM
      have hprev : (stepA (Ev.pup u) (runAcc (moves.map Ev.pmove)
          (stepA (Ev.pdown d) (Acc.start s0 h0)))).hs.preventContextMenu =
          true := by rw [u2, p3]
      obtain ⟨c1, c2, c3, c4, c5, c6, c7⟩ := cmenu_prevent_fields _ hprev
      refine ⟨?_, ?_, ?_⟩
      · rw [hrw, c3, u1, p2]
      · rw [hrw, c4, u3, p4, p2]
        rfl
      · rw [hrw, c1, u7, i8]
    · subst htr
      have hrw : sessionRun s0 h0 d moves ([Ev.pmove m] ++ [Ev.cmenu]) =
          stepA Ev.cmenu (stepA (Ev.pmove m) (runAcc (moves.map Ev.pmove)
            (stepA (Ev.pdown d) (Acc.start s0 h0)))) := by
        rw [sessionRun_decomp]
        rfl
      obtain ⟨u1, u2, u3, u4, u5, u6, u7, u8, u9⟩ :=
        abnormal_move_fields _ m hm hpanM
      have hprev : (stepA (Ev.pmove m) (runAcc (moves.map Ev.pmove)
          (stepA (Ev.pdown d) (Acc.start s0 h0)))).hs.preventContextMenu =
          true := by rw [u2, p3]
      obtain ⟨c1, c2, c3, c4, c5, c6, c7⟩ := cmenu_prevent_fields _ hprev
      refine ⟨?_, ?_, ?_⟩
      · rw [hrw, c3, u1, p2]
      · rw [hrw, c4, u3, p4, p2]
        rfl
      · rw [hrw, c1, u7, i8]

/-- C9 (implicit): when a session's displacement exceeds the drag
threshold, the transition into panning resets the host selection to the
snapshot `previousSelection` captured at the initiating
right-button-down, so at pan start (and from then on through the pan) the
selection equals the selection that existed before the press. -/
theorem claim9_selection_snapshot
    (s0 : HState) (h0 : Host) (hp0 : s0.isPanning = false)
    (d : PtrEvent) (hd : d.button = 2)
    (moves : List PtrEvent) (hheld : ∀ e ∈ moves, e.buttons &&& 2 ≠ 0)
    (hex : ∃ e ∈ moves,
        distExceeds (e.x - d.x) (e.y - d.y) DRAG_THRESHOLD) :
    (sessionRun s0 h0 d moves []).hs.isPanning = true ∧
    (sessionRun s0 h0 d moves []).hs.previousSelection = h0.selection ∧
    (sessionRun s0 h0 d moves []).host.selection = h0.selection := by
  have hinv1 := sessionInv_down s0 h0 d hp0 hd
  have hinvM := sessionInv_run _ _ _ _ _ moves hheld _ hinv1
  have hpanM := panning_after_exceed _ _ _ _ _ moves hheld _ hinv1 hex
  obtain ⟨i1, i2, -⟩ := hinvM
  have hrw : sessionRun s0 h0 d moves [] =
      runAcc (moves.map Ev.pmove) (stepA (Ev.pdown d) (Acc.start s0 h0)) :=
    sessionRun_decomp s0 h0 d moves []
  rw [hrw]
  exact ⟨hpanM, i1, i2⟩

/-- C8: every session acquires exactly one pointer capture — issued by
the pointer-down that starts the gesture — and on every termination path
(right-button-up after a pan, right-button-up after a click, or abnormal
termination of a pan when the right button is observed released on a move
event) at least one release of that capture is issued, so no capture is
left held after session end. -/
theorem claim8_capture_lifecycle
    (s0 : HState) (h0 : Host) (hp0 : s0.isPanning = false)
    (d : PtrEvent) (hd : d.button = 2)
    (moves : List PtrEvent) (hheld : ∀ e ∈ moves, e.buttons &&& 2 ≠ 0)
    (tr : List Ev)
    (hterm : (∃ u : PtrEvent, u.button = 2 ∧ tr = [Ev.pup u]) ∨
             ((∃ e ∈ moves,
                 distExceeds (e.x - d.x) (e.y - d.y) DRAG_THRESHOLD) ∧
              ∃ m : PtrEvent, m.buttons &&& 2 = 0 ∧ tr = [Ev.pmove m])) :
    (stepA (Ev.pdown d) (Acc.start s0 h0)).captures = 1 ∧
    (sessionRun s0 h0 d moves tr).captures = 1 ∧
    1 ≤ (sessionRun s0 h0 d moves tr).releases ∧
    (sessionRun s0 h0 d moves tr).host.capturedId = Option.none := by
  have hinv1 := sessionInv_down s0 h0 d hp0 hd
  have hinvM := sessionInv_run _ _ _ _ _ moves hheld _ hinv1
  obtain ⟨i1, i2, i3, i4, i5, i6, i7, -⟩ := hinvM
  refine ⟨by simp [stepA, step, onPointerDown, hd, Acc.start], ?_⟩
  rcases hterm with ⟨u, hu, htr⟩ | ⟨hex, m, hm, htr⟩
  · subst htr
    have hrw : sessionRun s0 h0 d moves [Ev.pup u] =
        stepA (Ev.pup u) (runAcc (moves.map Ev.pmove)
          (stepA (Ev.pdown d) (Acc.start s0 h0))) := by
      rw [sessionRun_decomp]
      rfl
    rw [hrw]
    cases hipM : (runAcc (moves.map Ev.pmove)
        (stepA (Ev.pdown d) (Acc.start s0 h0))).hs.isPanning with
    | true =>
        obtain ⟨-, -, -, u4, u5, u6, -⟩ := pan_up_fields _ u hu hipM
        rw [u4, u5, u6, i6, i7]
        exact ⟨rfl, by norm_num, rfl⟩
    | false =>
        obtain ⟨u1, u2, u3, -⟩ := click_up_fields _ u hu hipM
        rw [u1, u2, u3, i6, i7]
        exact ⟨rfl, by norm_num, rfl⟩
  · subst htr
    have hpanM := panning_after_exceed _ _ _ _ _ moves hheld _ hinv1 hex
    have hrw : sessionRun s0 h0 d moves [Ev.pmove m] =
        stepA (Ev.pmove m) (runAcc (moves.map Ev.pmove)
          (stepA (Ev.pdown d) (Acc.start s0 h0))) := by
      rw [sessionRun_decomp]
      rfl
    rw [hrw]
    obtain ⟨-, -, -, u4, u5, u6, -⟩ := abnormal_move_fields _ m hm hpanM
    rw [u4, u5, u6, i6, i7]
    exact ⟨rfl, by norm_num, rfl⟩

/-- Click-path evaluation shared by the theorems about short-displacement
sessions: after a right-button-down, any block of held moves that all
stay within `DRAG_THRESHOLD` of the press origin, and a right-button-up,
the handler hit-tests the release point, updates the selection
accordingly, and the following context-menu event passes through
unsuppressed. -/
theorem click_session_facts (s0 : HState) (h0 : Host)
    (hp0 : s0.isPanning = false) (d u : PtrEvent)
    (hd : d.button = 2) (hu : u.button = 2) (moves : List PtrEvent)
    (hmoves : ∀ e ∈ moves, e.buttons &&& 2 ≠ 0 ∧
        ¬ distExceeds (e.x - d.x) (e.y - d.y) DRAG_THRESHOLD) :
    (h0.shapeAt (screenToPage h0.camera u.x u.y).1
        (screenToPage h0.camera u.x u.y).2 = Option.none →
      (sessionRun s0 h0 d moves [Ev.pup u, Ev.cmenu]).host.selection =
        []) ∧
    (∀ sid, h0.shapeAt (screenToPage h0.camera u.x u.y).1
        (screenToPage h0.camera u.x u.y).2 = some sid →
      h0.selection.contains sid = true →
      (sessionRun s0 h0 d moves [Ev.pup u, Ev.cmenu]).host.selection =
        h0.selection) ∧
    (∀ sid, h0.shapeAt (screenToPage h0.camera u.x u.y).1
        (screenToPage h0.camera u.x u.y).2 = some sid →
      h0.selection.contains sid = false →
      (sessionRun s0 h0 d moves [Ev.pup u, Ev.cmenu]).host.selection =
        [sid]) ∧
    (sessionRun s0 h0 d moves [Ev.pup u, Ev.cmenu]).menusPrevented = 0 ∧
    (sessionRun s0 h0 d moves [Ev.pup u, Ev.cmenu]).menusPassed = 1 ∧
    (sessionRun s0 h0 d moves [Ev.pup u, Ev.cmenu]).menusDispatched = 1 := by
  have ha1x : (stepA (Ev.pdown d) (Acc.start s0 h0)).hs.startX = d.x := by
    simp [stepA, step, onPointerDown, hd, Acc.start]
  have ha1y : (stepA (Ev.pdown d) (Acc.start s0 h0)).hs.startY = d.y := by
    simp [stepA, step, onPointerDown, hd, Acc.start]
  have ha1p : (stepA (Ev.pdown d) (Acc.start s0 h0)).hs.isPanning =
      false := by
    simp [stepA, step, onPointerDown, hd, Acc.start, hp0]
  have hid := armed_run_id moves _ d.x d.y ha1x ha1y ha1p hmoves
  have hrw : sessionRun s0 h0 d moves [Ev.pup u, Ev.cmenu] =
      stepA Ev.cmenu (stepA (Ev.pup u)
        (stepA (Ev.pdown d) (Acc.start s0 h0))) := by
    rw [sessionRun_decomp, hid]
    rfl
  rw [hrw]
  refine ⟨?_, ?_, ?_, ?_, ?_, ?_⟩
  · intro hnone
    simp [stepA, step, onPointerDown, onPointerUp, onContextMenu, hd, hu,
      hp0, Acc.start, hnone]
  · intro sid hsid hcont
    simp at hcont
    simp [stepA, step, onPointerDown, onPointerUp, onContextMenu, hd, hu,
      hp0, Acc.start, hsid, hcont]
  · intro sid hsid hcont
    simp at hcont
    simp [stepA, step, onPointerDown, onPointerUp, onContextMenu, hd, hu,
      hp0, Acc.start, hsid, hcont]
  · simp [stepA, step, onPointerDown, onPointerUp, onContextMenu, hd, hu,
      hp0, Acc.start]
  · simp [stepA, step, onPointerDown, onPointerUp, onContextMenu, hd, hu,
      hp0, Acc.start]
  · simp [stepA, step, onPointerDown, onPointerUp, onContextMenu, hd, hu,
      hp0, Acc.start]

/-- C1: for every right-button press-to-release sequence whose
displacement from the press origin stays below `DRAG_THRESHOLD` on every
move and whose elapsed time stays below `CLICK_TIME_THRESHOLD`, the
release performs a hit-test at the release point: a hit shape not in the
current selection replaces the selection, a hit shape already selected
leaves the selection unchanged, no hit clears the selection, and the
subsequent context-menu event is not suppressed. -/
theorem claim1_click_hit_test (s0 : HState) (h0 : Host)
    (hp0 : s0.isPanning = false) (d u : PtrEvent)
    (hd : d.button = 2) (hu : u.button = 2) (moves : List PtrEvent)
    (hmoves : ∀ e ∈ moves, e.buttons &&& 2 ≠ 0 ∧
        ¬ distExceeds (e.x - d.x) (e.y - d.y) DRAG_THRESHOLD)
    (ht : u.t - d.t < CLICK_TIME_THRESHOLD) :
    (h0.shapeAt (screenToPage h0.camera u.x u.y).1
        (screenToPage h0.camera u.x u.y).2 = Option.none →
      (sessionRun s0 h0 d moves [Ev.pup u, Ev.cmenu]).host.selection =
        []) ∧
    (∀ sid, h0.shapeAt (screenToPage h0.camera u.x u.y).1
        (screenToPage h0.camera u.x u.y).2 = some sid →
      h0.selection.contains sid = true →
      (sessionRun s0 h0 d moves [Ev.pup u, Ev.cmenu]).host.selection =
        h0.selection) ∧
    (∀ sid, h0.shapeAt (screenToPage h0.camera u.x u.y).1
        (screenToPage h0.camera u.x u.y).2 = some sid →
      h0.selection.contains sid = false →
      (sessionRun s0 h0 d moves [Ev.pup u, Ev.cmenu]).host.selection =
        [sid]) ∧
    (sessionRun s0 h0 d moves [Ev.pup u, Ev.cmenu]).menusPrevented = 0 ∧
    (sessionRun s0 h0 d moves [Ev.pup u, Ev.cmenu]).menusPassed = 1 ∧
    (sessionRun s0 h0 d moves [Ev.pup u, Ev.cmenu]).menusDispatched = 1 :=
  click_session_facts s0 h0 hp0 d u hd hu moves hmoves

/-- C4 (amended): for every release with displacement below
`DRAG_THRESHOLD` and duration at or above `CLICK_TIME_THRESHOLD`, the
context menu is NOT suppressed: the handler applies no time threshold, so
a slow low-displacement press takes the click path and the menu passes
through to the host. -/
theorem claim4_slow_click_menu_not_suppressed (s0 : HState) (h0 : Host)
    (hp0 : s0.isPanning = false) (d u : PtrEvent)
    (hd : d.button = 2) (hu : u.button = 2) (moves : List PtrEvent)
    (hmoves : ∀ e ∈ moves, e.buttons &&& 2 ≠ 0 ∧
        ¬ distExceeds (e.x - d.x) (e.y - d.y) DRAG_THRESHOLD)
    (ht : CLICK_TIME_THRESHOLD ≤ u.t - d.t) :
    (sessionRun s0 h0 d moves [Ev.pup u, Ev.cmenu]).menusPrevented = 0 ∧
    (sessionRun s0 h0 d moves [Ev.pup u, Ev.cmenu]).menusPassed = 1 := by
  obtain ⟨-, -, -, m1, m2, -⟩ :=
    click_session_facts s0 h0 hp0 d u hd hu moves hmoves
  exact ⟨m1, m2⟩

/-! ### Concrete events for witnesses and counterexamples -/

/-- Right-button press at the origin, time 0. -/
def cDown : PtrEvent := ⟨2, 2, 0, 0, 1, 0⟩

/-- Right-button release at the origin after 100 ms. -/
def cUpFast : PtrEvent := ⟨2, 0, 0, 0, 1, 100⟩

/-- Right-button release at the origin after 300 ms (a slow press). -/
def cUpSlow : PtrEvent := ⟨2, 0, 0, 0, 1, 300⟩

/-- A held move to `(20, 0)` — displacement 20 exceeds the threshold. -/
def farMove : PtrEvent := ⟨0, 2, 20, 0, 1, 16⟩

/-- A move at `(20, 0)` with the right button no longer in `buttons` —
an abnormal pan termination. -/
def relMove : PtrEvent := ⟨0, 0, 20, 0, 1, 30⟩

/-- Right-button release at `(20, 0)` ending a pan. -/
def panUp : PtrEvent := ⟨2, 0, 20, 0, 1, 40⟩

/-- Witness for C1: a fast right-button click on `shapeHost` (hit test
finds shape 7 everywhere; selection is `[3]`), with no moves. -/
theorem claim1_witness :
    (HState.init.isPanning = false ∧ cDown.button = 2 ∧
     cUpFast.button = 2 ∧ cUpFast.t - cDown.t < CLICK_TIME_THRESHOLD) ∧
    ((shapeHost.shapeAt
          (screenToPage shapeHost.camera cUpFast.x cUpFast.y).1
          (screenToPage shapeHost.camera cUpFast.x cUpFast.y).2 =
        Option.none →
      (sessionRun HState.init shapeHost cDown []
          [Ev.pup cUpFast, Ev.cmenu]).host.selection = []) ∧
     (∀ sid, shapeHost.shapeAt
          (screenToPage shapeHost.camera cUpFast.x cUpFast.y).1
          (screenToPage shapeHost.camera cUpFast.x cUpFast.y).2 =
        some sid →
      shapeHost.selection.contains sid = true →
      (sessionRun HState.init shapeHost cDown []
          [Ev.pup cUpFast, Ev.cmenu]).host.selection =
        shapeHost.selection) ∧
     (∀ sid, shapeHost.shapeAt
          (screenToPage shapeHost.camera cUpFast.x cUpFast.y).1
          (screenToPage shapeHost.camera cUpFast.x cUpFast.y).2 =
        some sid →
      shapeHost.selection.contains sid = false →
      (sessionRun HState.init shapeHost cDown []
          [Ev.pup cUpFast, Ev.cmenu]).host.selection = [sid]) ∧
     (sessionRun HState.init shapeHost cDown []
        [Ev.pup cUpFast, Ev.cmenu]).menusPrevented = 0 ∧
     (sessionRun HState.init shapeHost cDown []
        [Ev.pup cUpFast, Ev.cmenu]).menusPassed = 1 ∧
     (sessionRun HState.init shapeHost cDown []
        [Ev.pup cUpFast, Ev.cmenu]).menusDispatched = 1) :=
  ⟨⟨rfl, rfl, rfl, by norm_num [cUpFast, cDown, CLICK_TIME_THRESHOLD]⟩,
   claim1_click_hit_test HState.init shapeHost rfl cDown cUpFast rfl rfl
     [] (by simp)
     (by norm_num [cUpFast, cDown, CLICK_TIME_THRESHOLD])⟩

/-- C4 counterexample: a slow (300 ms ≥ `CLICK_TIME_THRESHOLD`)
zero-displacement right-button press — the claim says the context menu is
always suppressed, but the handler, which applies no time threshold,
takes the click path and lets the menu through (`menusPrevented = 0`). -/
theorem claim4_counterexample :
    CLICK_TIME_THRESHOLD ≤ cUpSlow.t - cDown.t ∧
    (sessionRun HState.init emptyHost cDown []
        [Ev.pup cUpSlow, Ev.cmenu]).menusPrevented = 0 ∧
    (sessionRun HState.init emptyHost cDown []
        [Ev.pup cUpSlow, Ev.cmenu]).menusPassed = 1 := by
  refine ⟨by norm_num [cUpSlow, cDown, CLICK_TIME_THRESHOLD], ?_, ?_⟩ <;>
    simp [sessionRun, runAcc, stepA, step, onPointerDown, onPointerUp,
      onContextMenu, Acc.start, HState.init, emptyHost, cDown, cUpSlow,
      screenToPage]

/-- Witness for the amended C4 at the slow concrete press. -/
theorem claim4_witness :
    (HState.init.isPanning = false ∧ cDown.button = 2 ∧
     cUpSlow.button = 2 ∧ CLICK_TIME_THRESHOLD ≤ cUpSlow.t - cDown.t) ∧
    ((sessionRun HState.init emptyHost cDown []
        [Ev.pup cUpSlow, Ev.cmenu]).menusPrevented = 0 ∧
     (sessionRun HState.init emptyHost cDown []
        [Ev.pup cUpSlow, Ev.cmenu]).menusPassed = 1) :=
  ⟨⟨rfl, rfl, rfl, by norm_num [cUpSlow, cDown, CLICK_TIME_THRESHOLD]⟩,
   claim4_slow_click_menu_not_suppressed HState.init emptyHost rfl cDown
     cUpSlow rfl rfl [] (by simp)
     (by norm_num [cUpSlow, cDown, CLICK_TIME_THRESHOLD])⟩

/-- Witness for C2: press at the origin, one held move to `(20, 0)`
(displacement 20 > 5), release via right-button-up, then the context-menu
event. -/
theorem claim2_witness :
    (HState.init.isPanning = false ∧ cDown.button = 2 ∧
     (∀ e ∈ [farMove], e.buttons &&& 2 ≠ 0) ∧
     (∃ e ∈ [farMove],
        distExceeds (e.x - cDown.x) (e.y - cDown.y) DRAG_THRESHOLD) ∧
     ((∃ u : PtrEvent, u.button = 2 ∧
         ([Ev.pup panUp] : List Ev) = [Ev.pup u]) ∨
      (∃ m : PtrEvent, m.buttons &&& 2 = 0 ∧
         ([Ev.pup panUp] : List Ev) = [Ev.pmove m]))) ∧
    ((∀ p q, [farMove] = p ++ q →
        (∃ e ∈ p,
           distExceeds (e.x - cDown.x) (e.y - cDown.y) DRAG_THRESHOLD) →
        (sessionRun HState.init emptyHost cDown p
            []).host.currentTool = "hand") ∧
     (sessionRun HState.init emptyHost cDown [farMove]
        ([Ev.pup panUp] ++ [Ev.cmenu])).host.currentTool =
          emptyHost.currentTool ∧
     (sessionRun HState.init emptyHost cDown [farMove]
        ([Ev.pup panUp] ++ [Ev.cmenu])).toolSets =
          ["hand", emptyHost.currentTool] ∧
     (sessionRun HState.init emptyHost cDown [farMove]
        ([Ev.pup panUp] ++ [Ev.cmenu])).menusPrevented = 1) :=
  ⟨⟨rfl, rfl, by decide,
    ⟨farMove, by simp,
     by norm_num [distExceeds, farMove, cDown, DRAG_THRESHOLD]⟩,
    Or.inl ⟨panUp, rfl, rfl⟩⟩,
   claim2_pan_tool_lifecycle HState.init emptyHost rfl cDown rfl
     [farMove] (by decide)
     ⟨farMove, by simp,
      by norm_num [distExceeds, farMove, cDown, DRAG_THRESHOLD]⟩
     [Ev.pup panUp] (Or.inl ⟨panUp, rfl, rfl⟩)⟩

/-- Witness for C8: the same dragged session, terminated by a
right-button-up. -/
theorem claim8_witness :
    (HState.init.isPanning = false ∧ cDown.button = 2 ∧
     (∀ e ∈ [farMove], e.buttons &&& 2 ≠ 0) ∧
     ((∃ u : PtrEvent, u.button = 2 ∧
         ([Ev.pup panUp] : List Ev) = [Ev.pup u]) ∨
      ((∃ e ∈ [farMove],
          distExceeds (e.x - cDown.x) (e.y - cDown.y) DRAG_THRESHOLD) ∧
       ∃ m : PtrEvent, m.buttons &&& 2 = 0 ∧
         ([Ev.pup panUp] : List Ev) = [Ev.pmove m]))) ∧
    ((stepA (Ev.pdown cDown)
        (Acc.start HState.init emptyHost)).captures = 1 ∧
     (sessionRun HState.init emptyHost cDown [farMove]
        [Ev.pup panUp]).captures = 1 ∧
     1 ≤ (sessionRun HState.init emptyHost cDown [farMove]
        [Ev.pup panUp]).releases ∧
     (sessionRun HState.init emptyHost cDown [farMove]
        [Ev.pup panUp]).host.capturedId = Option.none) :=
  ⟨⟨rfl, rfl, by decide, Or.inl ⟨panUp, rfl, rfl⟩⟩,
   claim8_capture_lifecycle HState.init emptyHost rfl cDown rfl
     [farMove] (by decide) [Ev.pup panUp] (Or.inl ⟨panUp, rfl, rfl⟩)⟩

/-- Witness for C9: the same dragged session, observed at the end of the
move block. -/
theorem claim9_witness :
    (HState.init.isPanning = false ∧ cDown.button = 2 ∧
     (∀ e ∈ [farMove], e.buttons &&& 2 ≠ 0) ∧
     (∃ e ∈ [farMove],
        distExceeds (e.x - cDown.x) (e.y - cDown.y) DRAG_THRESHOLD)) ∧
    ((sessionRun HState.init emptyHost cDown [farMove]
        []).hs.isPanning = true ∧
     (sessionRun HState.init emptyHost cDown [farMove]
        []).hs.previousSelection = emptyHost.selection ∧
     (sessionRun HState.init emptyHost cDown [farMove]
        []).host.selection = emptyHost.selection) :=
  ⟨⟨rfl, rfl, by decide,
    ⟨farMove, by simp,
     by norm_num [distExceeds, farMove, cDown, DRAG_THRESHOLD]⟩⟩,
   claim9_selection_snapshot HState.init emptyHost rfl cDown rfl
     [farMove] (by decide)
     ⟨farMove, by simp,
      by norm_num [distExceeds, farMove, cDown, DRAG_THRESHOLD]⟩⟩

end TldrawBgb
